import Mathlib

/-!
Verification development for the food-calories HTTP service (src/app.py).

The Python source is shallowly embedded as executable Lean definitions:
  - remote recognizer / LLM responses become explicit input values
    (an exception raised by a remote call is an explicit constructor);
  - the Flask handlers become pure functions from (cache, request) to
    (response, cache);
  - Python ints are ℤ, the float arithmetic of the calorie rescale is
    modelled exactly over ℚ, with Python int() truncation made explicit.
-/

/-! ## String utilities (embedding Python str operations) -/

/-- Helper for substring search: does the list start with the pattern? -/
def charsStartWith : List Char → List Char → Bool
  | [], _ => true
  | _ :: _, [] => false
  | p :: ps, c :: cs => p == c && charsStartWith ps cs

/-- Does the pattern occur contiguously in the list? -/
def charsContain (needle : List Char) : List Char → Bool
  | [] => needle.isEmpty
  | c :: cs => charsStartWith needle (c :: cs) || charsContain needle cs

/-- Python membership test on strings: needle in hay (contiguous substring). -/
def strIn (needle hay : String) : Bool :=
  charsContain needle.toList hay.toList

/-- Python any(kw in hay for kw in kws). -/
def containsAny (hay : String) (kws : List String) : Bool :=
  kws.any (fun kw => strIn kw hay)

/-- Python str.strip(): remove leading and trailing whitespace. -/
def pyStrip (s : String) : String :=
  ⟨((s.toList.dropWhile Char.isWhitespace).reverse.dropWhile Char.isWhitespace).reverse⟩

/-- Python str.replace(c, '') for a one-character pattern: drop every
occurrence of the character. -/
def removeChar (c : Char) (s : String) : String :=
  ⟨s.toList.filter (fun a => a != c)⟩

/-- Value of a run of decimal digit characters, most significant first.
Embeds Python int() applied to a string of digits. -/
def digitsToNat (ds : List Char) : ℕ :=
  ds.foldl (fun n c => 10 * n + (c.toNat - 48)) 0

/-- Worker for digitRuns: cur holds the current run, reversed. -/
def digitRunsGo (cur : List Char) : List Char → List String
  | [] => if cur.isEmpty then [] else [⟨cur.reverse⟩]
  | c :: cs =>
    if c.isDigit then digitRunsGo (c :: cur) cs
    else if cur.isEmpty then digitRunsGo [] cs
    else ⟨cur.reverse⟩ :: digitRunsGo [] cs

/-- All maximal runs of consecutive decimal digits in the string, in order.
Embeds Python re.findall applied with the digit-run pattern (src/app.py:190). -/
def digitRuns (s : String) : List String :=
  digitRunsGo [] s.toList

/-! ## JSON parse and field access (src/app.py:186, 200-201)

The source runs json.loads on the response text and then subscripts the
result.  The exception routing matters: json.JSONDecodeError sends the
code to the digit-extraction fallback; on a successful parse, subscripting
a non-dict value raises TypeError, which is NOT caught by the inner
except of src/app.py:213 (it catches only JSONDecodeError, ValueError and
KeyError) and so escapes to the outer handler, which returns (200, 200);
a dict missing the weight or calories key raises KeyError into the inner
except; and int(str(value).replace('"', '')) raises ValueError into the
inner except when the value does not coerce.

We therefore embed a Python JSON value and a parser for the json module
grammar: objects, arrays, strings with the standard escapes (including
the \u form with four hex digits), numbers with the leading-zero
restriction and optional fraction and exponent (a number is an int only
when it has neither, as in the json module), true, false, null, and the
NaN and Infinity extensions the json module accepts by default.  JSON
whitespace is space, tab, newline and carriage return.  Duplicate object
keys keep the last value, as for a Python dict.  Modelling boundary:
digits are ASCII (the source's regex and int() also accept other Unicode
decimal digits), and a \u escape denoting a surrogate half decodes to
the null character (such texts never yield the keys or digit strings the
code looks for, so the routing is unaffected). -/

/-- Split off the leading run of digits. -/
def takeDigits : List Char → List Char × List Char
  | [] => ([], [])
  | c :: cs =>
    if c.isDigit then
      let p := takeDigits cs
      (c :: p.1, p.2)
    else ([], c :: cs)

/-- A Python value as produced by json.loads, as far as the code can
observe it.  pfloat keeps no magnitude: str() of any Python float
contains a dot, an e or a letter, so int(str(v)) always raises
ValueError for floats. -/
inductive PyVal where
  | pnull : PyVal
  | pbool : Bool → PyVal
  | pint : ℤ → PyVal
  | pfloat : PyVal
  | pstr : String → PyVal
  | plist : List PyVal → PyVal
  | pdict : List (String × PyVal) → PyVal
deriving Repr

/-- JSON whitespace. -/
def skipJsonWs : List Char → List Char
  | [] => []
  | c :: cs => if c = ' ' || c = '\t' || c = '\n' || c = '\r' then skipJsonWs cs else c :: cs

/-- Value of one hex digit. -/
def hexVal (c : Char) : Option ℕ :=
  if 48 ≤ c.toNat ∧ c.toNat ≤ 57 then some (c.toNat - 48)
  else if 97 ≤ c.toNat ∧ c.toNat ≤ 102 then some (c.toNat - 87)
  else if 65 ≤ c.toNat ∧ c.toNat ≤ 70 then some (c.toNat - 55)
  else none

/-- Body of a JSON string after the opening quote: decoded characters
and the rest after the closing quote.  Unescaped control characters are
rejected (json strict mode). -/
def jParseStringBody : List Char → Option (List Char × List Char)
  | [] => none
  | '"' :: rest => some ([], rest)
  | '\\' :: '"' :: rest => (jParseStringBody rest).map (fun p => ('"' :: p.1, p.2))
  | '\\' :: '\\' :: rest => (jParseStringBody rest).map (fun p => ('\\' :: p.1, p.2))
  | '\\' :: '/' :: rest => (jParseStringBody rest).map (fun p => ('/' :: p.1, p.2))
  | '\\' :: 'b' :: rest => (jParseStringBody rest).map (fun p => (Char.ofNat 8 :: p.1, p.2))
  | '\\' :: 'f' :: rest => (jParseStringBody rest).map (fun p => (Char.ofNat 12 :: p.1, p.2))
  | '\\' :: 'n' :: rest => (jParseStringBody rest).map (fun p => ('\n' :: p.1, p.2))
  | '\\' :: 'r' :: rest => (jParseStringBody rest).map (fun p => ('\r' :: p.1, p.2))
  | '\\' :: 't' :: rest => (jParseStringBody rest).map (fun p => ('\t' :: p.1, p.2))
  | '\\' :: 'u' :: h1 :: h2 :: h3 :: h4 :: rest =>
    (match hexVal h1, hexVal h2, hexVal h3, hexVal h4 with
     | some a, some b, some c, some d =>
       (jParseStringBody rest).map
         (fun p => (Char.ofNat (4096 * a + 256 * b + 16 * c + d) :: p.1, p.2))
     | _, _, _, _ => none)
  | '\\' :: _ => none
  | c :: rest =>
    if c.toNat < 32 then none
    else (jParseStringBody rest).map (fun p => (c :: p.1, p.2))

/-- Consume a well-formed exponent part, if one starts here.  A
malformed exponent is left unconsumed: the leftover letter then fails
the surrounding context exactly as the whole document fails in json. -/
def jParseExpTry : List Char → Option (List Char)
  | 'e' :: r =>
    (match r with
     | '+' :: t => (match takeDigits t with | ([], _) => none | (_, r3) => some r3)
     | '-' :: t => (match takeDigits t with | ([], _) => none | (_, r3) => some r3)
     | _ => (match takeDigits r with | ([], _) => none | (_, r3) => some r3))
  | 'E' :: r =>
    (match r with
     | '+' :: t => (match takeDigits t with | ([], _) => none | (_, r3) => some r3)
     | '-' :: t => (match takeDigits t with | ([], _) => none | (_, r3) => some r3)
     | _ => (match takeDigits r with | ([], _) => none | (_, r3) => some r3))
  | _ => none

/-- Unsigned JSON number: leading zeros are invalid; a fraction or an
exponent makes it a float. -/
def jParseNumMag (cs : List Char) : Option (PyVal × List Char) :=
  match takeDigits cs with
  | ([], _) => none
  | (ds, rest) =>
    match ds with
    | '0' :: _ :: _ => none
    | _ =>
      match rest with
      | '.' :: r2 =>
        (match takeDigits r2 with
         | ([], _) => none
         | (_, r3) =>
           match jParseExpTry r3 with
           | some r4 => some (PyVal.pfloat, r4)
           | none => some (PyVal.pfloat, r3))
      | _ =>
        match jParseExpTry rest with
        | some r4 => some (PyVal.pfloat, r4)
        | none => some (PyVal.pint ((digitsToNat ds : ℤ)), rest)

/-- Negate a parsed number. -/
def jNegate : PyVal → PyVal
  | PyVal.pint n => PyVal.pint (-n)
  | v => v

/-- A JSON number with optional sign. -/
def jParseNumber (cs : List Char) : Option (PyVal × List Char) :=
  match cs with
  | '-' :: cs1 => (jParseNumMag cs1).map (fun p => (jNegate p.1, p.2))
  | _ => jParseNumMag cs

mutual

/-- A JSON value.  The fuel decreases on every recursive call; each call
edge consumes at least one character of input per three calls (object
and array openers, keys, colons and commas), so the initial fuel of
three times the input length plus a margin never runs out on input the
grammar accepts. -/
def jParseValue : ℕ → List Char → Option (PyVal × List Char)
  | 0, _ => none
  | fuel + 1, cs =>
    match skipJsonWs cs with
    | '\x7b' :: rest => jParseMembersFirst fuel (skipJsonWs rest)
    | '[' :: rest => jParseItemsFirst fuel (skipJsonWs rest)
    | '"' :: rest => (jParseStringBody rest).map (fun p => (PyVal.pstr ⟨p.1⟩, p.2))
    | 't' :: 'r' :: 'u' :: 'e' :: rest => some (PyVal.pbool true, rest)
    | 'f' :: 'a' :: 'l' :: 's' :: 'e' :: rest => some (PyVal.pbool false, rest)
    | 'n' :: 'u' :: 'l' :: 'l' :: rest => some (PyVal.pnull, rest)
    | 'N' :: 'a' :: 'N' :: rest => some (PyVal.pfloat, rest)
    | 'I' :: 'n' :: 'f' :: 'i' :: 'n' :: 'i' :: 't' :: 'y' :: rest => some (PyVal.pfloat, rest)
    | '-' :: 'I' :: 'n' :: 'f' :: 'i' :: 'n' :: 'i' :: 't' :: 'y' :: rest =>
      some (PyVal.pfloat, rest)
    | other => jParseNumber other

/-- After the opening brace of an object. -/
def jParseMembersFirst : ℕ → List Char → Option (PyVal × List Char)
  | 0, _ => none
  | fuel + 1, cs =>
    match cs with
    | '\x7d' :: rest => some (PyVal.pdict [], rest)
    | _ => jParseMember fuel [] cs

/-- One key-value member of an object. -/
def jParseMember : ℕ → List (String × PyVal) → List Char → Option (PyVal × List Char)
  | 0, _, _ => none
  | fuel + 1, acc, cs =>
    match skipJsonWs cs with
    | '"' :: rest =>
      (match jParseStringBody rest with
       | none => none
       | some (key, r2) =>
         match skipJsonWs r2 with
         | ':' :: r3 =>
           (match jParseValue fuel r3 with
            | none => none
            | some (v, r4) => jParseMemberTail fuel (acc ++ [(⟨key⟩, v)]) r4)
         | _ => none)
    | _ => none

/-- After a member: a comma continues, a closing brace ends. -/
def jParseMemberTail : ℕ → List (String × PyVal) → List Char → Option (PyVal × List Char)
  | 0, _, _ => none
  | fuel + 1, acc, cs =>
    match skipJsonWs cs with
    | ',' :: rest => jParseMember fuel acc rest
    | '\x7d' :: rest => some (PyVal.pdict acc, rest)
    | _ => none

/-- After the opening bracket of an array. -/
def jParseItemsFirst : ℕ → List Char → Option (PyVal × List Char)
  | 0, _ => none
  | fuel + 1, cs =>
    match cs with
    | ']' :: rest => some (PyVal.plist [], rest)
    | _ => jParseItem fuel [] cs

/-- One element of an array. -/
def jParseItem : ℕ → List PyVal → List Char → Option (PyVal × List Char)
  | 0, _, _ => none
  | fuel + 1, acc, cs =>
    match jParseValue fuel cs with
    | none => none
    | some (v, rest) => jParseItemTail fuel (acc ++ [v]) rest

/-- After an element: a comma continues, a closing bracket ends. -/
def jParseItemTail : ℕ → List PyVal → List Char → Option (PyVal × List Char)
  | 0, _, _ => none
  | fuel + 1, acc, cs =>
    match skipJsonWs cs with
    | ',' :: rest => jParseItem fuel acc rest
    | ']' :: rest => some (PyVal.plist acc, rest)
    | _ => none

end

/-- json.loads: one value with only whitespace around it; none models
json.JSONDecodeError. -/
def pyJsonLoads (s : String) : Option PyVal :=
  match jParseValue (3 * s.toList.length + 12) s.toList with
  | some (v, rest) => if skipJsonWs rest = [] then some v else none
  | none => none

/-- Python int() applied to a stripped string body: decimal digits with
single underscores allowed between digits (the scan state records
whether the previous character was a digit). -/
def pyIntScan : List Char → ℕ → Bool → Option ℕ
  | [], acc, lastDigit => if lastDigit then some acc else none
  | c :: cs, acc, lastDigit =>
    if c.isDigit then pyIntScan cs (10 * acc + (c.toNat - 48)) true
    else if c = '_' then
      if lastDigit then pyIntScan cs acc false else none
    else none

/-- Python int() on a string: surrounding whitespace allowed, one
optional sign, then digits (with the underscore rule); none models
ValueError. -/
def pyIntOfString (s : String) : Option ℤ :=
  let t := (((s.toList.dropWhile Char.isWhitespace).reverse.dropWhile
    Char.isWhitespace).reverse)
  match t with
  | '+' :: rest => (pyIntScan rest 0 false).map (fun n => ((n : ℤ)))
  | '-' :: rest => (pyIntScan rest 0 false).map (fun n => -((n : ℤ)))
  | _ => (pyIntScan t 0 false).map (fun n => ((n : ℤ)))

/-- int(str(value).replace('"', '')) of src/app.py:200-201 for one field
value: an int passes through (str of an int round-trips), a string has
its double quotes removed and is int()-parsed, and every other Python
value yields a str() form that int() rejects (floats and bools and None
by their spelling, lists and dicts by their brackets), so the coercion
raises ValueError. -/
def coerceField : PyVal → Option ℤ
  | PyVal.pint n => some n
  | PyVal.pstr s => pyIntOfString (removeChar '"' s)
  | _ => none

/-- Python dict subscript for an object built from parsed members: the
last binding of the key wins, none models KeyError. -/
def dictGetLast (kvs : List (String × PyVal)) (key : String) : Option PyVal :=
  (kvs.filterMap (fun kv => if kv.1 = key then some kv.2 else none)).getLast?

/-! ## Weight/calorie estimator (src/app.py:124-241) -/

/-- A (weight, calories) estimate as returned by
estimate_food_info_from_image (src/app.py:208-211). -/
structure FoodInfo where
  weight : ℤ
  calories : ℤ
deriving DecidableEq, Repr

/-- Outcome of the remote reasoning call: err models any exception raised
outside the response-parsing block (the chat-completions call itself or
the content access, src/app.py:129-172, 235); ok carries the raw response
text. -/
inductive RemoteResult where
  | err : RemoteResult
  | ok : String → RemoteResult
deriving DecidableEq, Repr

/-- Keyword-bucket default values of the inner except branch
(src/app.py:216-227), first matching bucket wins. -/
def defaultFor (food_name : String) : FoodInfo :=
  if containsAny food_name ["饭", "面", "粥"] then ⟨250, 350⟩
  else if containsAny food_name ["肉", "鱼", "鸡", "鸭"] then ⟨180, 280⟩
  else if containsAny food_name ["菜", "青菜", "生菜"] then ⟨120, 50⟩
  else if containsAny food_name ["苹果", "梨", "橙子", "柚子"] then ⟨180, 80⟩
  else if containsAny food_name ["草莓", "葡萄", "樱桃"] then ⟨100, 45⟩
  else ⟨200, 200⟩

/-- The cleanup applied to a nonempty response text before parsing:
strip, remove newlines and carriage returns, strip again
(src/app.py:172, 181). -/
def cleanResp (content : String) : String :=
  pyStrip (removeChar '\r' (removeChar '\n' (pyStrip content)))

/-- Outcome of the parse and coercion stage (src/app.py:185-201) on a
cleaned nonempty response text, classified by which except branch the
raised exception reaches:
outerErr — json.loads succeeded on a non-dict, so the subscript
result['weight'] raises TypeError, which the inner except does not catch
and the outer handler turns into (200, 200);
innerErr — json.JSONDecodeError with fewer than two digit runs to fall
back on, KeyError from a dict missing a field, or ValueError from the
int() coercion, all caught by the inner except of src/app.py:213;
vals w c — both fields coerced, values ready for the range check. -/
inductive ParseStage where
  | outerErr : ParseStage
  | innerErr : ParseStage
  | vals : ℤ → ℤ → ParseStage
deriving Repr, DecidableEq

/-- The parse and coercion stage of src/app.py:185-201: strict
json.loads; on decode failure the first two digit runs positionally (the
dict then holds digit strings, whose coercion always succeeds); on a
successful load the subscripts and int(str(...).replace('"', ''))
coercions of both fields, weight first. -/
def parseStage (t : String) : ParseStage :=
  match pyJsonLoads t with
  | some (PyVal.pdict kvs) =>
    (match dictGetLast kvs "weight" with
     | none => ParseStage.innerErr
     | some wv =>
       match coerceField wv with
       | none => ParseStage.innerErr
       | some w =>
         match dictGetLast kvs "calories" with
         | none => ParseStage.innerErr
         | some cv =>
           match coerceField cv with
           | none => ParseStage.innerErr
           | some c => ParseStage.vals w c)
  | some _ => ParseStage.outerErr
  | none =>
    match digitRuns t with
    | nw :: nc :: _ =>
      ParseStage.vals ((digitsToNat nw.toList : ℤ)) ((digitsToNat nc.toList : ℤ))
    | _ => ParseStage.innerErr

/-- estimate_food_info_from_image (src/app.py:124-241) as a function of
the label and the remote outcome.  The image argument of the source only
feeds the remote call and is absorbed into RemoteResult.  A TypeError
from subscripting a non-dict json.loads result reaches the outer except
and yields (200, 200) exactly like a remote-call error. -/
def estimate_food_info_from_image (food_name : String) (remote : RemoteResult) : FoodInfo :=
  match remote with
  | RemoteResult.err => ⟨200, 200⟩
  | RemoteResult.ok content =>
    if pyStrip content = "" then defaultFor food_name
    else
      match parseStage (cleanResp content) with
      | ParseStage.outerErr => ⟨200, 200⟩
      | ParseStage.innerErr => defaultFor food_name
      | ParseStage.vals w c =>
        if 50 ≤ w ∧ w ≤ 1000 ∧ 20 ≤ c ∧ c ≤ 1000 then ⟨w, c⟩
        else defaultFor food_name

/-- One entry of the result list of the dish or ingredient endpoint; the
score field stands for the probability field of the dish endpoint and
the score field of the ingredient endpoint. -/
structure RecogEntry where
  name : String
  score : ℚ
deriving DecidableEq, Repr

/-- One entry of the result list of the general recognition endpoint. -/
structure GeneralEntry where
  keyword : String
  root : String
  score : ℚ
deriving DecidableEq, Repr

/-- The value identify_with_baidu returns (src/app.py:47-51). -/
structure ClassificationResult where
  name : String
  confidence : ℚ
  is_food : Bool
deriving DecidableEq, Repr

deriving instance DecidableEq for Except

/-- The food-indicating substrings of src/app.py:82-86. -/
def foodKeywords : List String :=
  ["食物", "水果", "蔬菜", "零食", "饮料", "甜点", "面包",
   "糕点", "坚果", "干果", "食材", "主食", "小吃", "糖果",
   "瓜", "果", "菜", "肉", "鱼", "虾", "蛋", "奶"]

/-- Stage 1 (src/app.py:39-53): accept the top dish result unless it is
the sentinel 非菜; an exception (none) or an empty or missing result list
falls through. -/
def dishStage : Option (List RecogEntry) → Option ClassificationResult
  | some (e :: _) => if e.name ≠ "非菜" then some ⟨e.name, e.score, true⟩ else none
  | _ => none

/-- Stage 2 (src/app.py:56-71): same with the sentinel 非果蔬食材. -/
def ingredientStage : Option (List RecogEntry) → Option ClassificationResult
  | some (e :: _) => if e.name ≠ "非果蔬食材" then some ⟨e.name, e.score, true⟩ else none
  | _ => none

/-- Stage 3 (src/app.py:74-102): take the top general result and decide
food-ness by keyword membership in its keyword or root category. -/
def generalStage : Option (List GeneralEntry) → Option ClassificationResult
  | some (e :: _) =>
    some ⟨e.keyword, e.score,
      foodKeywords.any (fun kw => strIn kw e.keyword || strIn kw e.root)⟩
  | _ => none

/-- identify_with_baidu (src/app.py:29-104): the three stages in order,
first acceptable hit wins; exhaustion raises ValueError 无法识别物体.
Each stage argument is none when that remote call raised, otherwise the
parsed result list. -/
def identify_with_baidu (dish ingredient : Option (List RecogEntry))
    (general : Option (List GeneralEntry)) : Except String ClassificationResult :=
  match dishStage dish with
  | some r => Except.ok r
  | none =>
    match ingredientStage ingredient with
    | some r => Except.ok r
    | none =>
      match generalStage general with
      | some r => Except.ok r
      | none => Except.error "无法识别物体"

/-! ## HTTP handlers (src/app.py:245-342) -/

/-- The calorie cache food_info_cache (src/app.py:243): association list
with newest binding first, so assignment is cons (last write wins). -/
abbrev FoodCache := List (String × FoodInfo)

/-- Remote-world inputs of one identify request: the three recognizer
outcomes and the estimator outcome.  Token acquisition and base64
encoding (src/app.py:260-264) carry no decision logic and are absorbed
here. -/
structure IdentifyEnv where
  dish : Option (List RecogEntry)
  ingredient : Option (List RecogEntry)
  general : Option (List GeneralEntry)
  remote : RemoteResult
deriving DecidableEq, Repr

/-- JSON body and status of an identify response; absent keys are none. -/
structure IdResponse where
  status : ℕ
  name : Option String
  confidence : Option ℚ
  weight : Option ℤ
  calories : Option ℤ
  message : Option String
  error : Option String
deriving DecidableEq, Repr

/-- identify_food (src/app.py:245-297): returns the response and the
cache after the call.  hasFile models food_image in request.files. -/
def identify_food (cache : FoodCache) (hasFile : Bool) (filename : String)
    (env : IdentifyEnv) : IdResponse × FoodCache :=
  if hasFile = false then
    (⟨400, none, none, none, none, none, some "没有文件"⟩, cache)
  else if filename = "" then
    (⟨400, none, none, none, none, none, some "没有选择文件"⟩, cache)
  else
    match identify_with_baidu env.dish env.ingredient env.general with
    | Except.error msg => (⟨500, none, none, none, none, none, some msg⟩, cache)
    | Except.ok r =>
      if r.is_food then
        let fi := estimate_food_info_from_image r.name env.remote
        (⟨200, some r.name, some r.confidence, some fi.weight, some fi.calories, none, none⟩,
          (r.name, fi) :: cache)
      else
        (⟨200, some r.name, some r.confidence, none, none, some "这个不能吃哦", none⟩, cache)

lemma estimate_json_int_typeErr :
    estimate_food_info_from_image "米饭" (RemoteResult.ok "123") = ⟨200, 200⟩ := rfl

lemma estimate_json_list_typeErr :
    estimate_food_info_from_image "米饭" (RemoteResult.ok "[1,2]") = ⟨200, 200⟩ := rfl

lemma estimate_json_bool_typeErr :
    estimate_food_info_from_image "米饭" (RemoteResult.ok "true") = ⟨200, 200⟩ := rfl

/-- C9: for every label, if the remote reasoning call itself raises, the
estimator returns exactly weight 200 and calories 200, regardless of the
keyword bucket of the label, and never propagates the error. -/
theorem remote_error_default_estimate (label : String) :
    estimate_food_info_from_image label RemoteResult.err = ⟨200, 200⟩ := rfl

/-- C7: for the estimator response text 约250克，350卡, the strict JSON
parse fails, the digit-extraction fallback assigns the first digit run to
weight and the second to calories, yielding weight 250 and calories 350,
which pass the range check and are returned as the estimate (for every
label, since the fallback defaults are not consulted). -/
theorem digit_extraction_fallback (label : String) :
    pyJsonLoads "约250克，350卡" = none ∧
    digitRuns "约250克，350卡" = ["250", "350"] ∧
    estimate_food_info_from_image label (RemoteResult.ok "约250克，350卡") = ⟨250, 350⟩ := by
  refine ⟨rfl, by decide, ?_⟩
  show (if pyStrip "约250克，350卡" = "" then defaultFor label
    else
      match parseStage (cleanResp "约250克，350卡") with
      | ParseStage.outerErr => ⟨200, 200⟩
      | ParseStage.innerErr => defaultFor label
      | ParseStage.vals w c =>
        if 50 ≤ w ∧ w ≤ 1000 ∧ 20 ≤ c ∧ c ≤ 1000 then ⟨w, c⟩
        else defaultFor label) = ⟨250, 350⟩
  rw [if_neg (by decide : ¬pyStrip "约250克，350卡" = "")]
  rw [show parseStage (cleanResp "约250克，350卡") = ParseStage.vals 250 350 from by decide]
  show (if (50 : ℤ) ≤ 250 ∧ (250 : ℤ) ≤ 1000 ∧ (20 : ℤ) ≤ 350 ∧ (350 : ℤ) ≤ 1000
    then (⟨250, 350⟩ : FoodInfo) else defaultFor label) = ⟨250, 350⟩
  rw [if_pos (by norm_num)]

/-- C6: when stage 1 returns a non-empty result whose top label is the
sentinel 非菜 and stage 2 returns a non-empty result whose top label is
not 非果蔬食材, the cascade returns the stage-2 name and score with
is_food true; the result does not depend on the stage-3 outcome, so the
general recognizer is never consulted. -/
theorem cascade_sentinel_stage2 (e1 : RecogEntry) (r1 : List RecogEntry)
    (e2 : RecogEntry) (r2 : List RecogEntry) (g : Option (List GeneralEntry))
    (h1 : e1.name = "非菜") (h2 : e2.name ≠ "非果蔬食材") :
    identify_with_baidu (some (e1 :: r1)) (some (e2 :: r2)) g =
      Except.ok ⟨e2.name, e2.score, true⟩ := by
  simp [identify_with_baidu, dishStage, ingredientStage, h1, h2]

/-- Witness for C6 at a concrete cascade input. -/
theorem cascade_sentinel_stage2_witness :
    identify_with_baidu (some [⟨"非菜", 9⟩]) (some [⟨"苹果", 8⟩])
      (some [⟨"汽车", "交通工具", 5⟩]) = Except.ok ⟨"苹果", 8, true⟩ :=
  cascade_sentinel_stage2 ⟨"非菜", 9⟩ [] ⟨"苹果", 8⟩ [] (some [⟨"汽车", "交通工具", 5⟩])
    rfl (by decide)

/-- C10: for every identify call whose classification yields a non-food
result, the response carries the name, the confidence and the message
这个不能吃哦, has no weight or calories keys, and the calorie cache is
returned completely unchanged. -/
theorem nonfood_response_and_cache_frame (cache : FoodCache) (filename : String)
    (env : IdentifyEnv) (r : ClassificationResult)
    (hfn : filename ≠ "")
    (hB : identify_with_baidu env.dish env.ingredient env.general = Except.ok r)
    (hfood : r.is_food = false) :
    identify_food cache true filename env =
      (⟨200, some r.name, some r.confidence, none, none, some "这个不能吃哦", none⟩, cache) := by
  simp [identify_food, hfn, hB, hfood]

/-- Witness for C10: a general-stage result 汽车 is classified non-food;
the response carries the message and a pre-populated cache is unchanged. -/
theorem nonfood_response_and_cache_frame_witness :
    identify_food [("米饭", ⟨250, 350⟩)] true "a.jpg"
      ⟨none, none, some [⟨"汽车", "交通工具", 5⟩], RemoteResult.err⟩ =
    (⟨200, some "汽车", some 5, none, none, some "这个不能吃哦", none⟩,
     [("米饭", ⟨250, 350⟩)]) :=
  nonfood_response_and_cache_frame [("米饭", ⟨250, 350⟩)] "a.jpg"
    ⟨none, none, some [⟨"汽车", "交通工具", 5⟩], RemoteResult.err⟩
    ⟨"汽车", 5, false⟩ (by decide) (by decide) rfl

/-- C1 (amended): when every classifier stage errors or returns an empty
result list, the cascade raises and the identify handler surfaces it as
HTTP 500 with an error key carrying the message 无法识别物体 — not 400 as
the spec states; see identify_exhausted_not_400_cex. -/
theorem identify_exhausted_returns_500 (cache : FoodCache) (filename : String)
    (env : IdentifyEnv)
    (hfn : filename ≠ "")
    (hd : env.dish = none ∨ env.dish = some [])
    (hi : env.ingredient = none ∨ env.ingredient = some [])
    (hg : env.general = none ∨ env.general = some []) :
    (identify_food cache true filename env).fst.status = 500 ∧
    (identify_food cache true filename env).fst.error = some "无法识别物体" := by
  have hds : dishStage env.dish = none := by
    rcases hd with h | h <;> rw [h] <;> rfl
  have his : ingredientStage env.ingredient = none := by
    rcases hi with h | h <;> rw [h] <;> rfl
  have hgs : generalStage env.general = none := by
    rcases hg with h | h <;> rw [h] <;> rfl
  have hB : identify_with_baidu env.dish env.ingredient env.general =
      Except.error "无法识别物体" := by
    rw [identify_with_baidu, hds, his, hgs]
  rw [identify_food]
  simp [hfn, hB]

/-- Witness for C1 (amended) with all three stages erroring. -/
theorem identify_exhausted_returns_500_witness :
    (identify_food [] true "a.jpg" ⟨none, none, none, RemoteResult.err⟩).fst.status = 500 ∧
    (identify_food [] true "a.jpg"
      ⟨none, none, none, RemoteResult.err⟩).fst.error = some "无法识别物体" :=
  identify_exhausted_returns_500 [] "a.jpg" ⟨none, none, none, RemoteResult.err⟩
    (by decide) (Or.inl rfl) (Or.inl rfl) (Or.inl rfl)

/-- Counterexample to C1 as stated: with a valid upload and all three
stages erroring, the identify response has status 500, not 400. -/
theorem identify_exhausted_not_400_cex :
    (identify_food [] true "b.jpg" ⟨none, none, none, RemoteResult.err⟩).fst.status = 500 ∧
    (identify_food [] true "b.jpg" ⟨none, none, none, RemoteResult.err⟩).fst.status ≠ 400 := by
  decide

